import Mathlib

/-!
Shallow embedding of the batch-orchestration layer of the
Genome-Assembly-Statistics-Tool repository (two variants:
`Genome_Stats.py`, driving GTDB-Tk, and `Genomic_QS.py`, driving CheckM),
together with theorems settling the frozen claims about the
natural-language specification.

Filesystem-dependent operations (directory listing, file copying,
subprocess exit) are embedded by passing their observable outcomes as
explicit data (directory entries, per-file copy outcomes, exit codes and
captured error streams), and stateful control flow (abort vs continue,
event ordering) by `Except` values and explicit event traces. Python
floats (CheckM percentages) are modelled as rationals.
-/

namespace GST

/-! ## Data model

A `DirEntry` is one direct child of the input root, as `os.scandir` /
`os.listdir` reports it: a name and whether it is a directory. -/

structure DirEntry where
  name : String
  isDir : Bool
deriving DecidableEq, Repr

/-! ## Structure detection -/

/-- Embeds Python's `name.startswith('.')`: true iff the first character
is a dot. -/
def startswith_dot (s : String) : Bool :=
  match s.data with
  | [] => false
  | c :: _ => c = '.'

/-- Embeds `Genome_Stats.detect_file_type` (lines 80-85): scan the direct
children of the input root and return "nested" as soon as one is a
directory whose name does not start with a dot, else "flat". -/
def detect_file_type (entries : List DirEntry) : String :=
  if entries.any (fun e => e.isDir && !(startswith_dot e.name)) then "nested"
  else "flat"

/-- Embeds `Genomic_QS.detect_structure` (lines 46-53): a non-"auto"
requested type is returned as-is; otherwise the result is "nested" iff
the list of direct subdirectories (with no hidden-name filter) is
nonempty. -/
def detect_structure (entries : List DirEntry) (structure_type : String) : String :=
  if structure_type ≠ "auto" then structure_type
  else if (entries.filter (fun e => e.isDir)).isEmpty then "flat"
  else "nested"

/-! ## Quality bucketing -/

/-- Embeds `Genomic_QS.classify_quality` (lines 63-73). -/
def classify_quality (completeness contamination : ℚ) : String × ℚ :=
  let qs := completeness - 5 * contamination
  if completeness ≥ 90 ∧ contamination ≤ 5 then ("near-complete", qs)
  else if completeness ≥ 70 ∧ contamination ≤ 10 then ("high-quality", qs)
  else if completeness ≥ 50 ∧ contamination ≤ 10 then ("medium-quality", qs)
  else ("low-quality", qs)

/-! ## Workspace naming -/

/-- Embeds the destination-name computation shared by
`Genome_Stats.process_files` (lines 184-188) and
`Genomic_QS.process_batch` (lines 190-194): the bare source file name for
a flat layout, `parentDirectory ++ "_" ++ sourceFileName` for a nested
one. -/
def dest_name (use_type parentDir baseName : String) : String :=
  if use_type = "nested" then parentDir ++ "_" ++ baseName else baseName

/-- Embeds `os.path.splitext(p)[0]` as used in `Genomic_QS.process_batch`
line 218: split at the last dot, unless every character before the last
dot is itself a dot (CPython's leading-dot rule), in which case the name
is returned whole. -/
def splitext_root (s : String) : String :=
  let cs := s.data
  let revIdx := cs.reverse.findIdx (fun c => c = '.')
  if revIdx = cs.length then s
  else
    let i := cs.length - 1 - revIdx
    if (cs.take i).any (fun c => c ≠ '.') then String.mk (cs.take i) else s

/-! ## Batch partitioning -/

/-- Round-robin bucketing of `Genome_Stats.process_files` line 183
(`task_idx = idx % args.threads`): the indices of the collected file list
that land in task `t`. -/
def gs_task_idxs (threads n t : Nat) : List Nat :=
  (List.range n).filter (fun i => i % threads = t)

/-- Fuel-driven worker for `qs_chunks`; the fuel is instantiated with the
list length, which suffices whenever the chunk size is positive. -/
def chunksGo {α : Type} (B : Nat) : Nat → List α → List (List α)
  | _, [] => []
  | 0, l => [l]
  | fuel + 1, l => l.take B :: chunksGo B fuel (l.drop B)

/-- Embeds the batch slicing of `Genomic_QS.process_genomes` lines
323-326 (`for i in range(0, N, batch_size): all_genomes[i:batch_end]`):
sequential chunks of size `B`. -/
def qs_chunks {α : Type} (B : Nat) (l : List α) : List (List α) :=
  chunksGo B l.length l

/-- Embeds `Genomic_QS.process_genomes` line 314: the effective batch
size is the configured one when positive, else the whole collection. -/
def qs_effective_batch (argBatch n : Nat) : Nat :=
  if argBatch > 0 then argBatch else n

/-! ## Workspace materialization (copying) -/

/-- One planned copy into a task workspace: the collision-safe
destination name, and whether `shutil.copy2` succeeds (a failed copy
models a raised exception). -/
structure CopyJob where
  destName : String
  copyOk : Bool
deriving DecidableEq, Repr

/-- Embeds the copy loop of `Genome_Stats.process_files` (lines 182-196):
each file is copied in turn; on the first copy exception the program
prints an error and calls `sys.exit(1)`, modelled as `Except.error`. -/
def gs_materialize : List CopyJob → Except String (List String)
  | [] => Except.ok []
  | j :: rest =>
    if j.copyOk then
      match gs_materialize rest with
      | Except.ok names => Except.ok (j.destName :: names)
      | Except.error e => Except.error e
    else Except.error ("复制文件失败: " ++ j.destName)

/-- The `Genome_Stats` run from materialization onward: classification
(and everything after it) runs only if every copy succeeded, because
`sys.exit(1)` inside the copy loop terminates the process. -/
def gs_pipeline (jobs : List CopyJob)
    (classify : List String → List (String × String)) :
    Except String (List (String × String)) :=
  match gs_materialize jobs with
  | Except.error e => Except.error e
  | Except.ok names => Except.ok (classify names)

/-! ## Classifier runners -/

/-- Embeds `Genome_Stats.run_gtdbtk` (lines 32-39): `subprocess.run`
with `check=True` raises `CalledProcessError` exactly on a non-zero exit
code; the handler converts that into `(False, diagnostic)`. -/
def run_gtdbtk (returnCode : Nat) (errMsg : String) : Bool × String :=
  if returnCode = 0 then (true, "") else (false, "GTDB-Tk失败: " ++ errMsg)

/-- Embeds `Genomic_QS.run_checkm` (lines 98-129): a non-zero return
code raises `CalledProcessError`; the handler prints diagnostics and
re-raises (`raise`), so the exception propagates — modelled as
`Except.error` carrying the captured error stream. On success the path
of the results file is returned. -/
def qs_run_checkm (returnCode : Nat) (errStream : String) : Except String String :=
  if returnCode = 0 then Except.ok "checkm_results.tsv" else Except.error errStream

/-! ## Result parsing and merging (Genome_Stats / GTDB-Tk) -/

/-- The observable content of one task's GTDB-Tk output directory: each
per-domain summary file is either absent (`none`) or a list of
`(user_genome, classification)` rows. -/
structure TaskOutput where
  bac : Option (List (String × String))
  arc : Option (List (String × String))

/-- Embeds `Genome_Stats.parse_gtdb_summary` (lines 41-52): an absent
file yields the empty mapping; otherwise each row maps
`user_genome ++ "." ++ extension` to its classification string. -/
def parse_gtdb_summary (content : Option (List (String × String)))
    (ext : String) : List (String × String) :=
  match content with
  | none => []
  | some rows => rows.map (fun r => (r.1 ++ "." ++ ext, r.2))

/-- Embeds the per-task merge of `Genome_Stats.process_files` lines
214-221 exactly as written: when the bac120 summary exists it is parsed,
and when the ar53 summary exists the code parses the *bac120* file again
(the second `parse_gtdb_summary(bac_file, args)` on line 221). -/
def gs_merge_task (ext : String) (t : TaskOutput) : List (String × String) :=
  (if t.bac.isSome then parse_gtdb_summary t.bac ext else []) ++
  (if t.arc.isSome then parse_gtdb_summary t.bac ext else [])

/-- Modelled from the spec: the per-domain merge contract of spec
sections 4.6 and 9 — "merge all available per-domain summary files, each
parsed independently" — i.e. the ar53 branch parses the ar53 file. This
definition follows the spec's words and exists only to be compared with
`gs_merge_task`, which follows the source. -/
def spec_merge_task (ext : String) (t : TaskOutput) : List (String × String) :=
  (if t.bac.isSome then parse_gtdb_summary t.bac ext else []) ++
  (if t.arc.isSome then parse_gtdb_summary t.arc ext else [])

/-- The run-wide classification map of `Genome_Stats.process_files`
lines 213-221: successive `dict.update` calls over all task outputs,
modelled as the concatenation of the per-task entry lists (later entries
shadow earlier ones, see `dict_get`). -/
def gs_all_classifications (ext : String) (touts : List TaskOutput) :
    List (String × String) :=
  (touts.map (gs_merge_task ext)).flatten

/-- Python `dict.get(k, dflt)` over a dict built by successive `update`
calls: the most recently inserted binding for `k` wins, hence the lookup
on the reversed entry list. -/
def dict_get (m : List (String × String)) (k dflt : String) : String :=
  (m.reverse.lookup k).getD dflt

/-! ## Final aggregation (Genome_Stats) -/

/-- One collected genome file as `generate_final_csv` sees it: base
name, parent-directory name, and the outcome of
`calculate_file_stats` — either the joined stats string or the message
of the exception it raised. -/
structure GFile where
  baseName : String
  parentDir : String
  statsResult : Except String String

/-- Embeds `Genome_Stats.generate_final_csv` (lines 231-256), minus the
fixed header line: every collected file yields exactly one data row —
the stats row with its looked-up classification (default "Not Found"),
or the error-placeholder row if the stats computation raised. -/
def generate_final_csv (file_list : List GFile)
    (classifications : List (String × String)) (file_type : String) :
    List String :=
  file_list.map (fun f =>
    let file_name :=
      if file_type = "nested" then f.parentDir ++ "_" ++ f.baseName else f.baseName
    let classification := dict_get classifications file_name "Not Found"
    match f.statsResult with
    | Except.ok stats => file_name ++ "," ++ stats ++ "," ++ classification
    | Except.error e =>
        file_name ++ ",ERROR-" ++ e.take 30 ++ ",0,0,0,0,0,0,ERROR")

/-! ## Batch processing (Genomic_QS / CheckM) -/

/-- One collected genome of `Genomic_QS.process_genomes`: base name,
parent sample directory (absent for the flat layout, line 277), MD5, and
whether its `shutil.copy2` into the batch workspace succeeds. -/
structure QGenome where
  baseName : String
  parentDir : Option String
  md5 : String
  copyOk : Bool

/-- The `prefixed_name` assigned during the copy loop of
`Genomic_QS.process_batch` (lines 190-205): parent-directory prefix for
the nested layout, bare base name otherwise. -/
def qs_prefixed_name (dir_structure : String) (g : QGenome) : String :=
  dest_name dir_structure (g.parentDir.getD "") g.baseName

/-- The copy loop of `Genomic_QS.process_batch` (lines 188-205): a copy
exception is printed and the loop `continue`s, so the workspace simply
receives the successfully copied genomes — the run is not aborted
here. -/
def qs_copy_phase (dir_structure : String) (batch : List QGenome) : List String :=
  (batch.filter (fun g => g.copyOk)).map (fun g => qs_prefixed_name dir_structure g)

/-- One row of a batch result file of `Genomic_QS.process_batch` (lines
226-234), after the `batch` column is dropped by the aggregation;
`none` renders as the "NA" sentinel. -/
structure QRow where
  fasta_file_name : String
  fasta_file_md5 : String
  completeness : Option ℚ
  contamination : Option ℚ
  qs : Option ℚ
  quality_class : String

/-- Embeds the result-preparation loop of `Genomic_QS.process_batch`
(lines 216-234): every genome of the batch contributes one row, keyed by
`splitext(prefixed_name)[0]` in the parsed CheckM results; genomes
absent from the results get the "NA" sentinel in every quality column.
A genome whose copy failed never had `prefixed_name` assigned, so line
218 raises `KeyError` — modelled as `Except.error`. -/
def qs_batch_rows (dir_structure : String) (batch : List QGenome)
    (results : List (String × ℚ × ℚ)) : Except String (List QRow) :=
  batch.mapM (fun g =>
    if g.copyOk then
      let pref := qs_prefixed_name dir_structure g
      match results.lookup (splitext_root pref) with
      | some (comp, cont) =>
          let q := classify_quality comp cont
          Except.ok ⟨pref, g.md5, some comp, some cont, some q.2, q.1⟩
      | none => Except.ok ⟨pref, g.md5, none, none, none, "NA"⟩
    else Except.error "KeyError: prefixed_name")

/-- Embeds `Genomic_QS.process_batch` (lines 181-244): materialize the
batch workspace (copy failures are skipped, not fatal), invoke CheckM —
whose raised exception propagates and aborts the run — and on success
build one row per genome of the batch. The parsed CheckM results are
passed in as `results`. Returns the workspace contents with the rows. -/
def qs_process_batch (dir_structure : String) (batch : List QGenome)
    (checkmExit : Nat) (errStream : String)
    (results : List (String × ℚ × ℚ)) :
    Except String (List String × List QRow) :=
  let workspace := qs_copy_phase dir_structure batch
  match qs_run_checkm checkmExit errStream with
  | Except.error e => Except.error e
  | Except.ok _ =>
      (qs_batch_rows dir_structure batch results).map (fun rows => (workspace, rows))

/-- Embeds the data flow of `Genomic_QS.process_genomes` (lines
246-367): zero collected genomes raise `FileNotFoundError`; otherwise
the collection is chunked by the effective batch size, each batch is
processed in turn (any batch exception aborting the whole run), and the
final table is the concatenation of all batch rows. Per-batch CheckM
exit codes, error streams and parsed results are supplied as functions
of the batch index. -/
def qs_process_genomes (dir_structure : String) (genomes : List QGenome)
    (argBatch : Nat) (checkmExit : Nat → Nat) (errStream : Nat → String)
    (results : Nat → List (String × ℚ × ℚ)) : Except String (List QRow) :=
  if genomes.isEmpty then Except.error "未找到基因组文件"
  else
    let B := qs_effective_batch argBatch genomes.length
    ((qs_chunks B genomes).enum.mapM
        (fun p => qs_process_batch dir_structure p.2 (checkmExit p.1)
          (errStream p.1) (results p.1))).map
      (fun outs => (outs.map Prod.snd).flatten)

/-! ## Run event traces (for ordering claims) -/

/-- Observable events of `Genomic_QS.process_genomes` in program order:
database check (line 250), `tempfile.mkdtemp` (line 257), file
collection (lines 261-299), then either the `FileNotFoundError` for an
empty collection (lines 301-308) or batch processing. -/
inductive QSEvent
  | checkDatabase
  | makeTempWorkspace
  | collectFiles (found : Nat)
  | raiseNoInputFiles
  | processBatches
deriving DecidableEq, Repr

/-- The event order of `Genomic_QS.process_genomes` as a function of how
many genome files the collector finds. The raised `FileNotFoundError`
is caught in `main` (line 375) and turned into `sys.exit(1)`. -/
def qs_run_trace (found : Nat) : List QSEvent :=
  [QSEvent.checkDatabase, QSEvent.makeTempWorkspace, QSEvent.collectFiles found] ++
  (if found = 0 then [QSEvent.raiseNoInputFiles] else [QSEvent.processBatches])

/-- Observable events of `Genome_Stats.process_files` in program order.
`raisePoolValueError` is the uncaught `ValueError` that
`ProcessPoolExecutor(max_workers=0)` raises at line 200 when the clamped
worker count is zero. -/
inductive GSEvent
  | collectFiles (found : Nat)
  | makeTempRoot
  | copyFiles
  | raisePoolValueError
  | runClassifier
  | writeCsv (rows : Nat)
  | cleanup
deriving DecidableEq, Repr

/-- Embeds the thread clamping of `Genome_Stats.process_files` lines
165-168: `if threads > len(all_files): threads = len(all_files)`. -/
def gs_clamp_threads (threads found : Nat) : Nat :=
  if threads > found then found else threads

/-- The event order of `Genome_Stats.process_files` (lines 161-229) as a
function of the configured thread count and the collected-file count,
for a run whose copies and tasks complete (copy failure is modelled by
`gs_pipeline`). There is no empty-input check anywhere: with zero files
the thread count is clamped to 0, the temp root is still created (line
172) and the empty copy loop runs, and then
`ProcessPoolExecutor(max_workers=0)` at line 200 raises an uncaught
`ValueError` — the process crashes with a non-zero exit before any CSV
is written and before cleanup. -/
def gs_run_trace (threads found : Nat) : List GSEvent :=
  [GSEvent.collectFiles found, GSEvent.makeTempRoot, GSEvent.copyFiles] ++
  (if gs_clamp_threads threads found = 0 then [GSEvent.raisePoolValueError]
   else [GSEvent.runClassifier, GSEvent.writeCsv found, GSEvent.cleanup])

/-! ## Temp-workspace retention flags -/

/-- A Python value as the `keep_temp` option can hold it: the strings
produced by `argparse` defaults/arguments, or a genuine boolean. -/
inductive PyVal
  | pyStr (s : String)
  | pyBool (b : Bool)
deriving DecidableEq, Repr

/-- Python `==` restricted to these values: a `str` never equals a
`bool`. -/
def pyEq : PyVal → PyVal → Bool
  | PyVal.pyStr a, PyVal.pyStr b => a == b
  | PyVal.pyBool a, PyVal.pyBool b => a == b
  | _, _ => false

/-- Python truthiness: a string is truthy iff nonempty. -/
def pyTruthy : PyVal → Bool
  | PyVal.pyStr s => !(s == "")
  | PyVal.pyBool b => b

/-- `Genome_Stats` line 24: `-k` is declared with `default="False"` and
no `action`, so `args.keep_temp` is always a string — the default string
"False" or whatever string the caller passed. -/
def gs_keep_temp_value (cliArg : Option String) : PyVal :=
  PyVal.pyStr (cliArg.getD "False")

/-- `Genome_Stats` lines 227-229: the temp root is removed iff
`args.keep_temp != False` (comparison with the boolean, not the
string). -/
def gs_cleanup_runs (cliArg : Option String) : Bool :=
  !(pyEq (gs_keep_temp_value cliArg) (PyVal.pyBool false))

/-- `Genomic_QS` lines 40-41: `-k` is declared with `action="store_true"`
**and** `default="False"`, so `args.keep_temp` is the string "False"
when the flag is absent and the boolean `True` when it is present. -/
def qs_keep_temp_value (flagPresent : Bool) : PyVal :=
  if flagPresent then PyVal.pyBool true else PyVal.pyStr "False"

/-- `Genomic_QS` lines 364-365: the temp dir is removed iff
`not args.keep_temp`. -/
def qs_cleanup_runs (flagPresent : Bool) : Bool :=
  !(pyTruthy (qs_keep_temp_value flagPresent))

end GST

namespace GST

/-- For C10: the quality classifier realises exactly the claimed
priority-ordered buckets, and always returns `QS = c - 5k`. -/
theorem classify_quality_characterisation (c k : ℚ) :
    (classify_quality c k).2 = c - 5 * k ∧
    ((classify_quality c k).1 = "near-complete" ↔ (c ≥ 90 ∧ k ≤ 5)) ∧
    ((classify_quality c k).1 = "high-quality" ↔
      (¬(c ≥ 90 ∧ k ≤ 5) ∧ c ≥ 70 ∧ k ≤ 10)) ∧
    ((classify_quality c k).1 = "medium-quality" ↔
      (¬(c ≥ 90 ∧ k ≤ 5) ∧ ¬(c ≥ 70 ∧ k ≤ 10) ∧ c ≥ 50 ∧ k ≤ 10)) ∧
    ((classify_quality c k).1 = "low-quality" ↔
      (¬(c ≥ 90 ∧ k ≤ 5) ∧ ¬(c ≥ 70 ∧ k ≤ 10) ∧ ¬(c ≥ 50 ∧ k ≤ 10))) := by
  unfold classify_quality
  split_ifs with h1 h2 h3 <;>
    refine ⟨rfl, ?_, ?_, ?_, ?_⟩ <;>
    simp_all

/-! ### Shared helper lemmas -/

theorem lookup_eq_none_of_no_key {k : String} :
    ∀ {m : List (String × String)}, (∀ p ∈ m, p.1 ≠ k) → m.lookup k = none := by
  intro m
  induction m with
  | nil => intro _; rfl
  | cons p rest ih =>
    intro h
    have h1 : (k == p.1) = false :=
      beq_eq_false_iff_ne.mpr (Ne.symm (h p (by simp)))
    have h2 := ih (fun q hq => h q (by simp [hq]))
    simp [List.lookup, h1, h2]

theorem dict_get_default {m : List (String × String)} {k d : String}
    (h : ∀ p ∈ m, p.1 ≠ k) : dict_get m k d = d := by
  unfold dict_get
  rw [lookup_eq_none_of_no_key (fun p hp => h p (List.mem_reverse.mp hp))]
  rfl

theorem except_map_ok {ε α β : Type} {x : Except ε α} {f : α → β} {b : β}
    (h : x.map f = Except.ok b) : ∃ a, x = Except.ok a ∧ f a = b := by
  cases x with
  | error e => simp [Except.map] at h
  | ok a => exact ⟨a, rfl, by simpa [Except.map] using h⟩

theorem mapM_ok_length {ε α β : Type} (f : α → Except ε β) :
    ∀ (l : List α) (ys : List β), l.mapM f = Except.ok ys → ys.length = l.length := by
  intro l
  induction l with
  | nil =>
    intro ys h
    simp only [List.mapM_nil] at h
    cases h
    rfl
  | cons x xs ih =>
    intro ys h
    simp only [List.mapM_cons] at h
    cases hfx : f x with
    | error e => rw [hfx] at h; simp [Bind.bind, Except.bind] at h
    | ok y =>
      rw [hfx] at h
      cases hxs : xs.mapM f with
      | error e =>
        rw [hxs] at h
        simp [Bind.bind, Except.bind, Pure.pure, Except.pure] at h
      | ok ys' =>
        rw [hxs] at h
        simp only [Bind.bind, Except.bind, Pure.pure, Except.pure,
          Except.ok.injEq] at h
        rw [← h]
        simp [ih ys' hxs]

theorem chunksGo_flatten {α : Type} (B : Nat) (hB : 0 < B) :
    ∀ (fuel : Nat) (l : List α), l.length ≤ fuel →
      (chunksGo B fuel l).flatten = l := by
  intro fuel
  induction fuel with
  | zero =>
    intro l hl
    have hnil : l = [] := List.eq_nil_of_length_eq_zero (Nat.le_zero.mp hl)
    subst hnil
    rfl
  | succ fuel ih =>
    intro l hl
    cases l with
    | nil => rfl
    | cons x xs =>
      simp only [List.length_cons] at hl
      have hlen : ((x :: xs).drop B).length ≤ fuel := by
        simp only [List.length_drop, List.length_cons]
        omega
      simp only [chunksGo, List.flatten_cons]
      rw [ih ((x :: xs).drop B) hlen, List.take_append_drop]

theorem chunksGo_length {α : Type} (B : Nat) (hB : 0 < B) :
    ∀ (fuel : Nat) (l : List α), l.length ≤ fuel →
      (chunksGo B fuel l).length = (l.length + B - 1) / B := by
  intro fuel
  induction fuel with
  | zero =>
    intro l hl
    have hnil : l = [] := List.eq_nil_of_length_eq_zero (Nat.le_zero.mp hl)
    subst hnil
    simp [chunksGo, (Nat.div_eq_of_lt (by omega) : (B - 1) / B = 0)]
  | succ fuel ih =>
    intro l hl
    cases l with
    | nil => simp [chunksGo, (Nat.div_eq_of_lt (by omega) : (B - 1) / B = 0)]
    | cons x xs =>
      simp only [List.length_cons] at hl
      have hlen : ((x :: xs).drop B).length ≤ fuel := by
        simp only [List.length_drop, List.length_cons]
        omega
      simp only [chunksGo, List.length_cons]
      rw [ih ((x :: xs).drop B) hlen]
      simp only [List.length_drop, List.length_cons]
      rcases Nat.lt_or_ge (xs.length + 1) B with hlt | hge
      · have h1 : xs.length + 1 - B = 0 := by omega
        rw [h1, Nat.div_eq_of_lt (by omega),
          (by omega : xs.length + 1 + B - 1 = xs.length + B)]
        have h2 : (xs.length + B) / B = 1 := by
          rw [(by omega : xs.length + B = xs.length + 1 * B),
            Nat.add_mul_div_right _ _ hB, Nat.div_eq_of_lt (by omega)]
        omega
      · have h1 : xs.length + 1 - B + B - 1 = xs.length := by omega
        have h2 : xs.length + 1 + B - 1 = xs.length + B := by omega
        rw [h1, h2, Nat.add_div_right _ hB]

theorem qs_chunks_flatten {α : Type} {B : Nat} (hB : 0 < B) (l : List α) :
    (qs_chunks B l).flatten = l :=
  chunksGo_flatten B hB l.length l (Nat.le_refl _)

theorem qs_chunks_length {α : Type} {B : Nat} (hB : 0 < B) (l : List α) :
    (qs_chunks B l).length = (l.length + B - 1) / B :=
  chunksGo_length B hB l.length l (Nat.le_refl _)

/-! ### Claim theorems -/

/-- C8 counterexample: for a root whose only direct child is the hidden
directory ".hidden", the claimed contract (nested iff some non-hidden
directory child exists) demands "flat", but `Genomic_QS.detect_structure`
returns "nested" — it applies no hidden-name filter. The Genome_Stats
detector, by contrast, follows the claimed contract here. -/
theorem hidden_dir_detection_counterexample :
    detect_structure [⟨".hidden", true⟩] "auto" = "nested" ∧
    (¬ ∃ e ∈ ([⟨".hidden", true⟩] : List DirEntry),
        e.isDir = true ∧ startswith_dot e.name = false) ∧
    detect_file_type [⟨".hidden", true⟩] = "flat" := by
  refine ⟨rfl, by decide, rfl⟩

/-- C8 amended: in auto mode, `Genome_Stats.detect_file_type` returns
"nested" iff some direct child is a directory whose name does not begin
with the hidden-file marker (and "flat" otherwise), while
`Genomic_QS.detect_structure` returns "nested" iff some direct child is
a directory, hidden ones included. Both are deterministic functions of
the listed entries. -/
theorem structure_detection_characterisation (entries : List DirEntry) :
    (detect_file_type entries = "nested" ↔
      ∃ e ∈ entries, e.isDir = true ∧ startswith_dot e.name = false) ∧
    (detect_file_type entries = "flat" ↔
      ¬ ∃ e ∈ entries, e.isDir = true ∧ startswith_dot e.name = false) ∧
    (detect_structure entries "auto" = "nested" ↔ ∃ e ∈ entries, e.isDir = true) ∧
    (detect_structure entries "auto" = "flat" ↔ ¬ ∃ e ∈ entries, e.isDir = true) := by
  have hs1 : ("flat" : String) ≠ "nested" := by decide
  have hs2 : ("nested" : String) ≠ "flat" := by decide
  have hfe : (entries.filter (fun e => e.isDir)).isEmpty = true ↔
      ¬ ∃ e ∈ entries, e.isDir = true := by
    simp [List.isEmpty_iff, List.filter_eq_nil_iff]
  have hany : entries.any (fun e => e.isDir && !(startswith_dot e.name)) = true ↔
      ∃ e ∈ entries, e.isDir = true ∧ startswith_dot e.name = false := by
    simp [List.any_eq_true, Bool.and_eq_true, Bool.not_eq_true']
  unfold detect_file_type detect_structure
  rw [if_neg (by decide : ¬ ("auto" : String) ≠ "auto")]
  refine ⟨?_, ?_, ?_, ?_⟩ <;> split_ifs with h <;> simp_all

/-- C6: the workspace-naming rule of both variants — the bare source
file name for a flat layout; parent-directory name, underscore, source
file name for a nested layout — and its consequence: two same-named
files from different samples receive distinct workspace names. -/
theorem workspace_naming (p p1 p2 b : String) (hne : p1 ≠ p2) :
    dest_name "flat" p b = b ∧
    dest_name "nested" p b = p ++ "_" ++ b ∧
    dest_name "nested" p1 b ≠ dest_name "nested" p2 b := by
  refine ⟨rfl, rfl, ?_⟩
  show (if ("nested" : String) = "nested" then p1 ++ "_" ++ b else b) ≠
    (if ("nested" : String) = "nested" then p2 ++ "_" ++ b else b)
  rw [if_pos rfl, if_pos rfl]
  intro h
  apply hne
  have hd := congrArg String.data h
  simp only [String.data_append] at hd
  exact String.ext (List.append_cancel_right (List.append_cancel_right hd))

theorem workspace_naming_witness :
    dest_name "flat" "sampleA" "g1.fa" = "g1.fa" ∧
    dest_name "nested" "sampleA" "g1.fa" = "sampleA" ++ "_" ++ "g1.fa" ∧
    dest_name "nested" "sampleA" "g1.fa" ≠ dest_name "nested" "sampleB" "g1.fa" :=
  workspace_naming "sampleA" "sampleA" "sampleB" "g1.fa" (by decide)

/-- C4 (code-bug evidence): whatever the caller passes, cleanup of the
temp workspace always runs in Genome_Stats (even when retention was
requested: `args.keep_temp` is always a string, and a string is never
`==` the boolean `False`), and never runs in Genomic_QS (both the
default string "False" and the `store_true` value `True` are truthy, so
`not args.keep_temp` is always false). -/
theorem keep_temp_cleanup_bug (cliArg : Option String) (flagPresent : Bool) :
    gs_cleanup_runs cliArg = true ∧ qs_cleanup_runs flagPresent = false := by
  constructor
  · cases cliArg <;> rfl
  · cases flagPresent <;> rfl

/-- C9 (code-bug evidence): `Genome_Stats.process_files` parses the
bac120 summary in the ar53 branch. With only the ar53 summary present
(one archaeal entry), the merged map is empty; with both present, the
bacterial entries are inserted twice and the archaeal entries never.
`spec_merge_task`, which follows the spec's stated contract, keeps
them. -/
theorem domain_summary_merge_bug :
    gs_merge_task "fa" ⟨none, some [("genome7", "d__Archaea")]⟩ = [] ∧
    spec_merge_task "fa" ⟨none, some [("genome7", "d__Archaea")]⟩ =
      [("genome7.fa", "d__Archaea")] ∧
    gs_merge_task "fa" ⟨some [("g1", "d__Bacteria")], some [("genome7", "d__Archaea")]⟩ =
      [("g1.fa", "d__Bacteria"), ("g1.fa", "d__Bacteria")] ∧
    spec_merge_task "fa" ⟨some [("g1", "d__Bacteria")], some [("genome7", "d__Archaea")]⟩ =
      [("g1.fa", "d__Bacteria"), ("genome7.fa", "d__Archaea")] :=
  ⟨rfl, rfl, rfl, rfl⟩

/-- C7 counterexample: with zero collected genome files, Genomic_QS does
raise the no-input-files error, but only *after* the temporary workspace
was created (`tempfile.mkdtemp` precedes collection in program order).
Genome_Stats (shown at its default thread count 1) raises no
no-input-files error either: it crashes on the uncaught pool
`ValueError` from the clamped-to-zero worker count — and that, too, only
after the temp root was created. -/
theorem empty_input_order_counterexample :
    qs_run_trace 0 = [QSEvent.checkDatabase, QSEvent.makeTempWorkspace,
      QSEvent.collectFiles 0, QSEvent.raiseNoInputFiles] ∧
    (qs_run_trace 0).indexOf QSEvent.makeTempWorkspace <
      (qs_run_trace 0).indexOf QSEvent.raiseNoInputFiles ∧
    gs_run_trace 1 0 = [GSEvent.collectFiles 0, GSEvent.makeTempRoot,
      GSEvent.copyFiles, GSEvent.raisePoolValueError] ∧
    (gs_run_trace 1 0).indexOf GSEvent.makeTempRoot <
      (gs_run_trace 1 0).indexOf GSEvent.raisePoolValueError := by
  refine ⟨rfl, by decide, by decide, by decide⟩

/-- C7 amended: Genomic_QS raises the no-input-files error exactly when
zero genome files are found (propagated by `main` to a non-zero exit),
but the temp workspace is created beforehand: the first two events of
every run are the database check and `mkdtemp`, and the error is never
among them. Genome_Stats has no explicit empty-input check: with zero
files — whatever the configured thread count — the clamped worker count
is zero, so after creating the temp root it crashes on the uncaught pool
`ValueError`, writing no CSV and performing no cleanup. -/
theorem empty_input_amended (n threads : Nat) :
    (QSEvent.raiseNoInputFiles ∈ qs_run_trace n ↔ n = 0) ∧
    (qs_run_trace n).take 2 = [QSEvent.checkDatabase, QSEvent.makeTempWorkspace] ∧
    QSEvent.raiseNoInputFiles ∉ (qs_run_trace n).take 2 ∧
    gs_run_trace threads 0 = [GSEvent.collectFiles 0, GSEvent.makeTempRoot,
      GSEvent.copyFiles, GSEvent.raisePoolValueError] ∧
    GSEvent.writeCsv 0 ∉ gs_run_trace threads 0 ∧
    GSEvent.cleanup ∉ gs_run_trace threads 0 := by
  have hcl : gs_clamp_threads threads 0 = 0 := by
    unfold gs_clamp_threads
    split <;> omega
  have hgs : gs_run_trace threads 0 = [GSEvent.collectFiles 0, GSEvent.makeTempRoot,
      GSEvent.copyFiles, GSEvent.raisePoolValueError] := by
    simp [gs_run_trace, hcl]
  refine ⟨?_, ?_, ?_, hgs, by simp [hgs], by simp [hgs]⟩ <;>
    unfold qs_run_trace <;> split_ifs with h
  · subst h; simp
  · simp [h]
  · rfl
  · rfl
  · simp
  · simp

/-- C5: partition correctness of both policies. Round-robin
(Genome_Stats): index `i` of the collected list belongs to task `t` iff
`t = i % T`, so each file lands in exactly one task and the tasks cover
all indices below `N`. By-batch-size (Genomic_QS): the sequential chunks
of size `B` concatenate back to exactly the collected list (disjoint
cover, order preserved) and there are `ceil(N/B)` of them. -/
theorem partition_correct (T N B : Nat) (hB : 0 < B) (l : List String) :
    (∀ i < N, ∀ t, i ∈ gs_task_idxs T N t ↔ t = i % T) ∧
    (qs_chunks B l).flatten = l ∧
    (qs_chunks B l).length = (l.length + B - 1) / B := by
  refine ⟨?_, qs_chunks_flatten hB l, qs_chunks_length hB l⟩
  intro i hi t
  simp only [gs_task_idxs, List.mem_filter, List.mem_range, decide_eq_true_eq]
  constructor
  · exact fun hp => hp.2.symm
  · exact fun ht => ⟨hi, ht.symm⟩

theorem qs_process_batch_rows_length {ds : String} {batch : List QGenome}
    {ec : Nat} {es : String} {res : List (String × ℚ × ℚ)}
    {pr : List String × List QRow}
    (h : qs_process_batch ds batch ec es res = Except.ok pr) :
    pr.2.length = batch.length := by
  simp only [qs_process_batch] at h
  split at h
  · exact absurd h (by simp)
  · obtain ⟨rows, hrows, hpr⟩ := except_map_ok h
    rw [← hpr]
    simp only [qs_batch_rows] at hrows
    exact mapM_ok_length _ batch rows hrows

theorem qs_batches_rows_length (ds : String) (ce : Nat → Nat) (es : Nat → String)
    (res : Nat → List (String × ℚ × ℚ)) :
    ∀ (bs : List (Nat × List QGenome)) (outs : List (List String × List QRow)),
      bs.mapM (fun p => qs_process_batch ds p.2 (ce p.1) (es p.1) (res p.1)) =
        Except.ok outs →
      ((outs.map Prod.snd).flatten).length = ((bs.map Prod.snd).flatten).length := by
  intro bs
  induction bs with
  | nil =>
    intro outs h
    simp only [List.mapM_nil] at h
    cases h
    rfl
  | cons p ps ih =>
    intro outs h
    simp only [List.mapM_cons] at h
    cases hp : qs_process_batch ds p.2 (ce p.1) (es p.1) (res p.1) with
    | error e => rw [hp] at h; simp [Bind.bind, Except.bind] at h
    | ok pr =>
      rw [hp] at h
      cases hps :
          ps.mapM (fun p => qs_process_batch ds p.2 (ce p.1) (es p.1) (res p.1)) with
      | error e =>
        rw [hps] at h
        simp [Bind.bind, Except.bind, Pure.pure, Except.pure] at h
      | ok outs' =>
        rw [hps] at h
        simp only [Bind.bind, Except.bind, Pure.pure, Except.pure,
          Except.ok.injEq] at h
        rw [← h]
        simp only [List.map_cons, List.flatten_cons, List.length_append]
        rw [ih outs' hps, qs_process_batch_rows_length hp]

/-- C1: completeness of aggregation. Genome_Stats: `generate_final_csv`
emits exactly one data row per collected file, for every classification
map — in particular for the maps left behind by any number of failed
tasks. Genomic_QS: any run of `process_genomes` that produces a final
table (`Except.ok`) produces exactly one row per collected genome,
whatever the per-batch CheckM results contain. -/
theorem aggregation_complete (files : List GFile) (cls : List (String × String))
    (ftype ds : String) (genomes : List QGenome) (argBatch : Nat)
    (exits : Nat → Nat) (errs : Nat → String)
    (res : Nat → List (String × ℚ × ℚ)) (rows : List QRow)
    (h : qs_process_genomes ds genomes argBatch exits errs res = Except.ok rows) :
    (generate_final_csv files cls ftype).length = files.length ∧
    rows.length = genomes.length := by
  refine ⟨by simp [generate_final_csv], ?_⟩
  simp only [qs_process_genomes] at h
  split at h
  · exact absurd h (by simp)
  · next hemp =>
    obtain ⟨outs, houts, hrows⟩ := except_map_ok h
    have hgne : genomes ≠ [] := fun hg => by simp [hg] at hemp
    have hBpos : 0 < qs_effective_batch argBatch genomes.length := by
      have hlen : 0 < genomes.length := List.length_pos.mpr hgne
      unfold qs_effective_batch
      split <;> omega
    rw [← hrows, qs_batches_rows_length ds exits errs res _ outs houts,
      List.enum_map_snd, qs_chunks_flatten hBpos genomes]

theorem aggregation_complete_witness :
    (generate_final_csv [⟨"g1.fa", "sampleA", Except.ok "md5,100,1,100,100,100,1"⟩]
        [] "flat").length =
      [(⟨"g1.fa", "sampleA", Except.ok "md5,100,1,100,100,100,1"⟩ : GFile)].length ∧
    ([⟨"g1.fa", "md5x", none, none, none, "NA"⟩] : List QRow).length =
      [(⟨"g1.fa", none, "md5x", true⟩ : QGenome)].length :=
  aggregation_complete [⟨"g1.fa", "sampleA", Except.ok "md5,100,1,100,100,100,1"⟩]
    [] "flat" "flat" [⟨"g1.fa", none, "md5x", true⟩] 0 (fun _ => 0) (fun _ => "")
    (fun _ => []) [⟨"g1.fa", "md5x", none, none, none, "NA"⟩] rfl

/-- C2 counterexample: in the CheckM variant a single classifier failure
(non-zero exit of the one and only batch) aborts the whole run — the
result is the propagated exception, not a final table in which the
failed task's genomes carry the sentinel label. The run does not
continue. -/
theorem checkm_failure_aborts_run_counterexample :
    qs_process_genomes "flat" [⟨"g1.fa", none, "md5x", true⟩] 0
      (fun _ => 1) (fun _ => "CheckM exited with status 1") (fun _ => []) =
      Except.error "CheckM exited with status 1" := rfl

/-- C2 amended: classifier-failure handling differs per variant. In
Genome_Stats, a non-zero GTDB-Tk exit makes the runner return
`(success=false, diagnostic)` (the caller logs it as a warning and
continues); the failed task's output directory contributes no summary
files, so removing it leaves the merged classification map literally
unchanged (other tasks unaffected), and any genome whose workspace name
is absent from the map receives the "Not Found" sentinel. In Genomic_QS,
by contrast, a non-zero CheckM exit raises and aborts the run. -/
theorem classifier_failure_per_variant
    (ec : Nat) (hec : ec ≠ 0) (msg : String)
    (ext : String) (pre post : List TaskOutput)
    (cls : List (String × String)) (n : String) (hn : ∀ p ∈ cls, p.1 ≠ n)
    (qec : Nat) (hqec : qec ≠ 0) (qerr : String) :
    run_gtdbtk ec msg = (false, "GTDB-Tk失败: " ++ msg) ∧
    gs_all_classifications ext (pre ++ ⟨none, none⟩ :: post) =
      gs_all_classifications ext (pre ++ post) ∧
    dict_get cls n "Not Found" = "Not Found" ∧
    qs_run_checkm qec qerr = Except.error qerr := by
  refine ⟨by simp [run_gtdbtk, hec], ?_, dict_get_default hn,
    by simp [qs_run_checkm, hqec]⟩
  simp [gs_all_classifications, gs_merge_task, parse_gtdb_summary]

theorem classifier_failure_per_variant_witness :
    run_gtdbtk 1 "exit 1" = (false, "GTDB-Tk失败: " ++ "exit 1") ∧
    gs_all_classifications "fa"
        ([⟨some [("g1", "d__Bacteria")], none⟩] ++ ⟨none, none⟩ :: []) =
      gs_all_classifications "fa" ([⟨some [("g1", "d__Bacteria")], none⟩] ++ []) ∧
    dict_get [("g1.fa", "d__Bacteria")] "g2.fa" "Not Found" = "Not Found" ∧
    qs_run_checkm 2 "boom" = Except.error "boom" :=
  classifier_failure_per_variant 1 (by decide) "exit 1" "fa"
    [⟨some [("g1", "d__Bacteria")], none⟩] [] [("g1.fa", "d__Bacteria")] "g2.fa"
    (by decide) 2 (by decide) "boom"

theorem gs_materialize_error_of_bad :
    ∀ (jobs : List CopyJob), (∃ j ∈ jobs, j.copyOk = false) →
      ∃ e, gs_materialize jobs = Except.error e := by
  intro jobs
  induction jobs with
  | nil => rintro ⟨j, hj, _⟩; cases hj
  | cons j rest ih =>
    rintro ⟨j', hj', hfail⟩
    by_cases hok : j.copyOk
    · rcases List.mem_cons.mp hj' with hh | hh
      · subst hh; simp [hfail] at hok
      · obtain ⟨e, he⟩ := ih ⟨j', hh, hfail⟩
        exact ⟨e, by simp [gs_materialize, hok, he]⟩
    · exact ⟨"复制文件失败: " ++ j.destName, by simp [gs_materialize, hok]⟩

/-- C3 counterexample: in Genomic_QS a failed copy does not abort the
run. First conjunct: with a batch whose only genome fails to copy, the
batch still reaches the CheckM invocation — the reported failure is the
classifier's own, not a copy abort. Second conjunct: with a succeeding
classifier, the run dies only later, at result preparation, on the
missing prefixed-name key. -/
theorem qs_copy_failure_not_failfast_counterexample :
    qs_process_batch "flat" [⟨"g1.fa", none, "md5x", false⟩] 1
      "checkm ran and failed" [] = Except.error "checkm ran and failed" ∧
    qs_process_batch "flat" [⟨"g1.fa", none, "md5x", false⟩] 0 "" [] =
      Except.error "KeyError: prefixed_name" :=
  ⟨rfl, rfl⟩

/-- C3 amended: copy-failure handling differs per variant. In
Genome_Stats, any copy exception aborts the entire run immediately
(`sys.exit(1)`): the pipeline result is an error and the classification
stage never executes. In Genomic_QS, a copy failure is logged and the
genome skipped; the batch proceeds to the CheckM invocation regardless
(here made observable by a failing classifier whose error, not a copy
abort, is the batch outcome). Neither variant performs the byte-length
verification the spec describes. -/
theorem copy_failure_handling_per_variant
    (jobs : List CopyJob) (hbad : ∃ j ∈ jobs, j.copyOk = false)
    (classify : List String → List (String × String))
    (ds : String) (batch : List QGenome) (ec : Nat) (hec : ec ≠ 0)
    (err : String) (res : List (String × ℚ × ℚ)) :
    (∃ e, gs_pipeline jobs classify = Except.error e) ∧
    qs_process_batch ds batch ec err res = Except.error err := by
  constructor
  · obtain ⟨e, he⟩ := gs_materialize_error_of_bad jobs hbad
    exact ⟨e, by simp [gs_pipeline, he]⟩
  · simp [qs_process_batch, qs_run_checkm, hec]

theorem copy_failure_handling_per_variant_witness :
    (∃ e, gs_pipeline [⟨"sampleA_g1.fa", false⟩]
        (fun names => names.map (fun x => (x, "d__Bacteria"))) =
      Except.error e) ∧
    qs_process_batch "flat" [⟨"g1.fa", none, "md5x", true⟩] 3 "err" [] =
      Except.error "err" :=
  copy_failure_handling_per_variant [⟨"sampleA_g1.fa", false⟩]
    ⟨⟨"sampleA_g1.fa", false⟩, by simp, rfl⟩
    (fun names => names.map (fun x => (x, "d__Bacteria"))) "flat"
    [⟨"g1.fa", none, "md5x", true⟩] 3 (by decide) "err" []

theorem partition_correct_witness :
    (∀ i < 5, ∀ t, i ∈ gs_task_idxs 2 5 t ↔ t = i % 2) ∧
    (qs_chunks 2 ["a", "b", "c", "d", "e"]).flatten = ["a", "b", "c", "d", "e"] ∧
    (qs_chunks 2 ["a", "b", "c", "d", "e"]).length =
      ((["a", "b", "c", "d", "e"] : List String).length + 2 - 1) / 2 :=
  partition_correct 2 5 2 (by decide) ["a", "b", "c", "d", "e"]

end GST
